import Mathlib

/-!
Shallow embedding of the `vibration-sense` firmware
(`src/Arduino_BLE_wash_sense.ino`): a Nano 33 BLE sketch that calibrates a
3-axis accelerometer at startup, then streams offset-corrected samples and
their Euclidean magnitude over four BLE notify characteristics.

Modelling conventions:
* `float` arithmetic is idealized as exact rational arithmetic (`ℚ`); the
  one square root (`sqrt` in `readAndSendSensorData`) is modelled over `ℝ`.
* `unsigned long` `millis()` arithmetic is `Nat` arithmetic modulo `2 ^ 32`.
* Side effects (Serial prints, digitalWrite, delay, BLE calls) are recorded
  as an `Action` trace; one loop iteration is a function from the ambient
  environment (`Env`: what `BLE.central()`, `millis()` and the IMU return on
  that iteration) and the current global state to a new state plus a trace.
* The sensor-availability polling during calibration is modelled as a list
  of events, `none` = `IMU.accelerationAvailable()` returned false,
  `some s` = it returned true and `IMU.readAcceleration` produced `s`.
  The LED pulses emitted during calibration are not modelled (no claim
  concerns them); `calibrateAccelerometer` is kept pure.
-/

namespace VibrationSense

/-- `#define SAMPLING_RATE_HZ 10` -/
def SAMPLING_RATE_HZ : Nat := 10

/-- `#define CALIBRATION_SAMPLES 50` -/
def CALIBRATION_SAMPLES : Nat := 50

/-- `#define LED_GREEN 23` -/
def LED_GREEN : Nat := 23

/-- `#define LED_RED 22` -/
def LED_RED : Nat := 22

/-- `#define LED_BLUE 24` -/
def LED_BLUE : Nat := 24

/-- `const long interval = 1000 / SAMPLING_RATE_HZ;` (milliseconds) -/
def interval : Nat := 1000 / SAMPLING_RATE_HZ

/-- Range of C `unsigned long` on this 32-bit target. -/
def ULONG_MOD : Nat := 2 ^ 32

/-- `currentMillis - previousMillis` in `unsigned long` arithmetic
(wraparound subtraction modulo `2 ^ 32`). -/
def elapsedMillis (cur prev : Nat) : Nat :=
  (cur % ULONG_MOD + (ULONG_MOD - prev % ULONG_MOD)) % ULONG_MOD

/-- One triaxial accelerometer reading, in multiples of 1 g. -/
structure Sample where
  x : ℚ
  y : ℚ
  z : ℚ
deriving DecidableEq

/-- The three global offset variables `offsetX`, `offsetY`, `offsetZ`. -/
structure CalibrationOffset where
  offsetX : ℚ
  offsetY : ℚ
  offsetZ : ℚ
deriving DecidableEq

/-- Observable side effects of the sketch, recorded as a trace.
`writeMagValue sq` stands for `vibrationMag.writeValue(sqrt(sq))`: the
magnitude characteristic write is recorded by the *square* of the written
value so that traces stay in `ℚ` (the write of the literal `0.0` in `setup`
is `writeMagValue 0`, since `sqrt 0 = 0` exactly). -/
inductive Action where
  | poll                                  -- `BLE.poll()`
  | delayMs (ms : Nat)                    -- `delay(ms)`
  | digitalWrite (pin : Nat) (high : Bool)
  | logMsg (msg : String)                 -- `Serial.println(...)` status text
  | logConnected (addr : String)          -- `Serial.print("Connected to: ")` + address
  | logDisconnected                       -- `Serial.println("Disconnected from BLE device.")`
  | logData (x y z magSq : ℚ)             -- the per-sample debug print
  | writeValue (attr : String) (v : ℚ)    -- `<characteristic>.writeValue(v)`
  | writeMagValue (magSq : ℚ)             -- `vibrationMag.writeValue(sqrt(magSq))`
  | setLocalName (s : String)
  | setAdvertisedService (svc : String)   -- `BLE.setAdvertisedService(...)`
  | addCharacteristic (attr : String)     -- `vibrationService.addCharacteristic(...)`
  | addService (svc : String)             -- `BLE.addService(...)`
  | advertise                             -- `BLE.advertise()`
deriving DecidableEq

/-- UUID of `vibrationX` ("2A37"), `vibrationY` ("2A38"), `vibrationZ`
("2A39"), `vibrationMag` ("2A40"). -/
def attrX : String := "2A37"

def attrY : String := "2A38"

def attrZ : String := "2A39"

def attrMag : String := "2A40"

/-! ## Calibration engine (`calibrateAccelerometer`) -/

/-- The `while (samples < CALIBRATION_SAMPLES)` accumulation loop of
`calibrateAccelerometer`: each event is one pass of the loop body
(`none` = sensor not available, nothing accumulated; `some s` = a sample
read and accumulated).  Returns the three running sums once
`CALIBRATION_SAMPLES` samples are accepted, or `none` when the event
stream is exhausted first (the real loop would still be waiting). -/
def calibAccum (events : List (Option Sample)) (sumX sumY sumZ : ℚ) (samples : Nat) :
    Option (ℚ × ℚ × ℚ) :=
  if CALIBRATION_SAMPLES ≤ samples then
    some (sumX, sumY, sumZ)
  else
    match events with
    | [] => none
    | none :: rest => calibAccum rest sumX sumY sumZ samples
    | some s :: rest => calibAccum rest (sumX + s.x) (sumY + s.y) (sumZ + s.z) (samples + 1)

/-- `calibrateAccelerometer()`: accumulate `CALIBRATION_SAMPLES` samples,
average, and subtract the fixed `1.0` gravity correction from the Z axis.
`none` means the routine is still blocked waiting for the sensor. -/
def calibrateAccelerometer (events : List (Option Sample)) : Option CalibrationOffset :=
  match calibAccum events 0 0 0 0 with
  | none => none
  | some (sumX, sumY, sumZ) =>
      some { offsetX := sumX / (CALIBRATION_SAMPLES : ℚ)
             offsetY := sumY / (CALIBRATION_SAMPLES : ℚ)
             offsetZ := sumZ / (CALIBRATION_SAMPLES : ℚ) - 1 }

/-- The samples the calibration loop accepts: the first
`CALIBRATION_SAMPLES` available readings of the event stream. -/
def accepted (events : List (Option Sample)) : List Sample :=
  (events.filterMap id).take CALIBRATION_SAMPLES

/-! ## Streaming loop (`loop`) -/

/-- The global mutable state the `loop` body reads and writes:
`bool connectionActive` and `unsigned long previousMillis`
(the calibration offsets are global too but are never written after
`setup`; they are threaded separately, see `DeviceState`). -/
structure LoopState where
  connectionActive : Bool
  previousMillis : Nat
deriving DecidableEq

/-- What the collaborators return during one `loop` iteration:
`BLE.central()` (peer present and its address), `millis()`,
`IMU.accelerationAvailable()` and the reading `IMU.readAcceleration`
would produce. -/
structure Env where
  central : Bool
  centralAddress : String
  millis : Nat
  accelerationAvailable : Bool
  accel : Sample
deriving DecidableEq

/-- `blinkLED()`: pulse the green LED for 10 ms (active LOW). -/
def blinkLED : List Action :=
  [.digitalWrite LED_GREEN false, .delayMs 10, .digitalWrite LED_GREEN true]

/-- `readAndSendSensorData()`: if a fresh sample is available, subtract the
calibration offsets component-wise, compute the squared magnitude, log,
publish X, Y, Z and the magnitude (`sqrt` of the recorded square), and
pulse the green LED; otherwise do nothing. -/
def readAndSendSensorData (off : CalibrationOffset) (e : Env) : List Action :=
  if e.accelerationAvailable then
    let x := e.accel.x - off.offsetX
    let y := e.accel.y - off.offsetY
    let z := e.accel.z - off.offsetZ
    let magSq := x * x + y * y + z * z
    [.logData x y z magSq,
     .writeValue attrX x, .writeValue attrY y, .writeValue attrZ z,
     .writeMagValue magSq] ++ blinkLED
  else []

/-- First transition check of `loop`:
`if (central && !connectionActive) { connectionActive = true; ... }` —
the value of `connectionActive` afterwards. -/
def connAfterConnect (st : LoopState) (e : Env) : Bool :=
  if e.central && !st.connectionActive then true else st.connectionActive

/-- Actions emitted by the connect-transition branch. -/
def connectEvents (st : LoopState) (e : Env) : List Action :=
  if e.central && !st.connectionActive then
    [.logConnected e.centralAddress, .digitalWrite LED_BLUE false]
  else []

/-- Second transition check of `loop`:
`if (!central && connectionActive) { connectionActive = false; ... }` —
the value of `connectionActive` afterwards (its input is the value left by
the first check). -/
def connAfterDisconnect (connectionActive : Bool) (e : Env) : Bool :=
  if !e.central && connectionActive then false else connectionActive

/-- Actions emitted by the disconnect-transition branch. -/
def disconnectEvents (connectionActive : Bool) (e : Env) : List Action :=
  if !e.central && connectionActive then
    [.logDisconnected, .digitalWrite LED_BLUE true]
  else []

/-- One iteration of `loop()`: transition detection, then, when connected,
the non-blocking rate limiter around `readAndSendSensorData`, else a
100 ms idle delay; `BLE.poll()` always runs last.  Returns the new global
state and the iteration's action trace. -/
def loop (off : CalibrationOffset) (st : LoopState) (e : Env) : LoopState × List Action :=
  let c1 := connAfterConnect st e
  let a1 := connectEvents st e
  let c2 := connAfterDisconnect c1 e
  let a2 := disconnectEvents c1 e
  if c2 then
    if interval ≤ elapsedMillis e.millis st.previousMillis then
      (⟨c2, e.millis⟩, a1 ++ a2 ++ readAndSendSensorData off e ++ [.poll])
    else
      (⟨c2, st.previousMillis⟩, a1 ++ a2 ++ [.poll])
  else
    (⟨c2, st.previousMillis⟩, a1 ++ a2 ++ [.delayMs 100, .poll])

/-- State after one `loop` iteration. -/
def stepState (off : CalibrationOffset) (st : LoopState) (e : Env) : LoopState :=
  (loop off st e).1

/-- State after a sequence of `loop` iterations. -/
def runState (off : CalibrationOffset) (st : LoopState) (envs : List Env) : LoopState :=
  envs.foldl (stepState off) st

/-- Concatenated action trace of a sequence of `loop` iterations. -/
def runTrace (off : CalibrationOffset) (st : LoopState) : List Env → List Action
  | [] => []
  | e :: rest => (loop off st e).2 ++ runTrace off (stepState off st e) rest

/-- Is this action a characteristic publish (`writeValue` on any of the
four notify attributes)? -/
def isWrite : Action → Bool
  | .writeValue _ _ => true
  | .writeMagValue _ => true
  | _ => false

/-- Is this action the `BLE.poll()` servicing call? -/
def isPoll : Action → Bool
  | .poll => true
  | _ => false

/-- Is this action a connect/disconnect transition event (peer log or blue
connection-indicator change)? -/
def isTransitionEvent : Action → Bool
  | .logConnected _ => true
  | .logDisconnected => true
  | .digitalWrite pin _ => pin == LED_BLUE
  | _ => false

/-- Does this iteration publish at least one characteristic value? -/
def publishes (off : CalibrationOffset) (st : LoopState) (e : Env) : Bool :=
  (loop off st e).2.any isWrite

/-! ## Bootstrap (`setup`) and the fatal error state (`showError`) -/

/-- The whole-device state once `setup` has completed: the calibration
offsets (written only by `calibrateAccelerometer`) plus the loop's
mutable state. -/
structure DeviceState where
  offset : CalibrationOffset
  loopState : LoopState
deriving DecidableEq

/-- One iteration of `loop` at the device level: the offsets are read but
never written. -/
def deviceStep (ds : DeviceState) (e : Env) : DeviceState × List Action :=
  (⟨ds.offset, (loop ds.offset ds.loopState e).1⟩, (loop ds.offset ds.loopState e).2)

/-- Device state after a sequence of `loop` iterations. -/
def runDevice (ds : DeviceState) (envs : List Env) : DeviceState :=
  envs.foldl (fun d e => (deviceStep d e).1) ds

/-- One pass of the infinite `while (1)` body of `showError()`: blink the
blue LED with 300 ms delays (the red LED was set solid on entry). -/
def showErrorBody : List Action :=
  [.digitalWrite LED_BLUE false, .delayMs 300, .digitalWrite LED_BLUE true, .delayMs 300]

/-- Outcome of `setup()`:  `halted` = `showError()` was entered (it never
returns); `blockedInCalibration` = still waiting for the sensor inside
`calibrateAccelerometer`; `ready` = `setup` returned and `loop` starts. -/
inductive BootOutcome where
  | halted
  | blockedInCalibration
  | ready (ds : DeviceState)
deriving DecidableEq

/-- `setup()`: LED init, IMU init (fatal on failure), calibration, BLE init
(fatal on failure), service/characteristic registration, advertising, and
the four initial `writeValue(0.0)` calls.  `imuOk` and `bleOk` are what
`IMU.begin()` and `BLE.begin()` return; `events` drives calibration. -/
def setup (imuOk : Bool) (events : List (Option Sample)) (bleOk : Bool) :
    BootOutcome × List Action :=
  let ledInit : List Action :=
    [.digitalWrite LED_GREEN true, .digitalWrite LED_RED true, .digitalWrite LED_BLUE true]
  if !imuOk then
    (.halted, ledInit ++ [.logMsg "Failed to initialize IMU!", .digitalWrite LED_RED false])
  else
    let afterImu := ledInit ++ [.logMsg "IMU initialized."]
    match calibrateAccelerometer events with
    | none => (.blockedInCalibration, afterImu)
    | some off =>
        if !bleOk then
          (.halted, afterImu ++ [.logMsg "Starting BLE failed!", .digitalWrite LED_RED false])
        else
          (.ready ⟨off, ⟨false, 0⟩⟩,
           afterImu ++
           [.logMsg "BLE initialized.",
            .setLocalName "Nano33BLE_Vibration",
            .setAdvertisedService "180D",
            .addCharacteristic attrX, .addCharacteristic attrY,
            .addCharacteristic attrZ, .addCharacteristic attrMag,
            .addService "180D",
            .advertise,
            .logMsg "BLE Advertising...",
            .writeValue attrX 0, .writeValue attrY 0, .writeValue attrZ 0,
            .writeMagValue 0])

/-- The device as a whole after bootstrap: either halted forever in
`showError` or running the streaming loop. -/
inductive Mode where
  | halted
  | running (ds : DeviceState)
deriving DecidableEq

/-- One tick of the whole device: in `halted` mode the `showError` blink
loop repeats forever; in `running` mode one `loop` iteration executes. -/
def deviceTick : Mode → Env → Mode × List Action
  | .halted, _ => (.halted, showErrorBody)
  | .running ds, e => (.running (deviceStep ds e).1, (deviceStep ds e).2)

/-- Mode after a sequence of device ticks. -/
def runMode (m : Mode) (envs : List Env) : Mode :=
  envs.foldl (fun m e => (deviceTick m e).1) m

/-- Concatenated trace of a sequence of device ticks. -/
def runModeTrace (m : Mode) : List Env → List Action
  | [] => []
  | e :: rest => (deviceTick m e).2 ++ runModeTrace (deviceTick m e).1 rest

/-! ## Magnitude over the reals -/

/-- The value actually written to the magnitude characteristic:
`sqrt(x*x + y*y + z*z)` of the corrected components. -/
noncomputable def magnitude (x y z : ℚ) : ℝ :=
  Real.sqrt ((x * x + y * y + z * z : ℚ) : ℝ)

/-! ## Trace predicates and concrete fixtures -/

/-- The `Serial.print("Connected to: ")` event. -/
def isLogConnected : Action → Bool
  | .logConnected _ => true
  | _ => false

/-- The `Serial.println("Disconnected from BLE device.")` event. -/
def isLogDisconnected : Action → Bool
  | .logDisconnected => true
  | _ => false

/-- Turning the blue connection indicator on (active LOW). -/
def isBlueOn : Action → Bool
  | .digitalWrite pin high => pin == LED_BLUE && !high
  | _ => false

/-- Turning the blue connection indicator off. -/
def isBlueOff : Action → Bool
  | .digitalWrite pin high => pin == LED_BLUE && high
  | _ => false

/-- A zero calibration offset, used in concrete scenarios. -/
def off0 : CalibrationOffset := ⟨0, 0, 0⟩

/-- The loop's state right after `setup`: `connectionActive = false`,
`previousMillis = 0`. -/
def st0 : LoopState := ⟨false, 0⟩

/-- A concrete environment: peer present or not at time `t`, with no fresh
sensor sample. -/
def envC (c : Bool) (t : Nat) : Env := ⟨c, "c4:5b:ab:cd:ef:01", t, false, ⟨0, 0, 0⟩⟩

/-- A concrete environment with a peer and a fresh sample at time `t`. -/
def envS (t : Nat) : Env := ⟨true, "c4:5b:ab:cd:ef:01", t, true, ⟨1, 2, 3⟩⟩

/-- The peer-poll scenario of the edge-trigger property:
[Disconnected, Disconnected, Connected, Connected, Disconnected]. -/
def seqC4 : List Env :=
  [envC false 0, envC false 1, envC true 2, envC true 3, envC false 4]

/-- A concrete calibration run: one unavailable poll, then 50 samples all
equal to `(1, 2, 3)`. -/
def calibEventsW : List (Option Sample) :=
  none :: List.replicate CALIBRATION_SAMPLES (some ⟨1, 2, 3⟩)

/-- A concrete nonzero calibration offset. -/
def offW : CalibrationOffset := ⟨3, 0, 4⟩

/-- A concrete connected environment whose raw sample equals `offW`. -/
def envW : Env := ⟨true, "c4:5b:ab:cd:ef:01", 0, true, ⟨3, 0, 4⟩⟩

/-! ## Calibration lemmas -/

/-- Once `CALIBRATION_SAMPLES` samples are accepted the loop exits with the
current sums. -/
theorem calibAccum_of_le (events : List (Option Sample)) (sX sY sZ : ℚ) (n : Nat)
    (hge : CALIBRATION_SAMPLES ≤ n) :
    calibAccum events sX sY sZ n = some (sX, sY, sZ) := by
  rw [calibAccum.eq_def, if_pos hge]

/-- What the calibration accumulation loop computes: when it terminates
having started with `n` accepted samples, the event stream held at least
`CALIBRATION_SAMPLES - n` more available samples and each returned sum is
the starting sum plus the sum of that component over those samples. -/
theorem calibAccum_sums (events : List (Option Sample)) :
    ∀ (sX sY sZ : ℚ) (n : Nat) (tX tY tZ : ℚ),
      n ≤ CALIBRATION_SAMPLES →
      calibAccum events sX sY sZ n = some (tX, tY, tZ) →
      (((events.filterMap id).take (CALIBRATION_SAMPLES - n)).length = CALIBRATION_SAMPLES - n) ∧
      tX = sX + (((events.filterMap id).take (CALIBRATION_SAMPLES - n)).map Sample.x).sum ∧
      tY = sY + (((events.filterMap id).take (CALIBRATION_SAMPLES - n)).map Sample.y).sum ∧
      tZ = sZ + (((events.filterMap id).take (CALIBRATION_SAMPLES - n)).map Sample.z).sum := by
  induction events with
  | nil =>
      intro sX sY sZ n tX tY tZ hn h
      rw [calibAccum.eq_def] at h
      rcases Nat.lt_or_ge n CALIBRATION_SAMPLES with hlt | hge
      · rw [if_neg (Nat.not_le.mpr hlt)] at h
        exact absurd h (by simp)
      · rw [if_pos hge] at h
        simp only [Option.some.injEq, Prod.mk.injEq] at h
        obtain ⟨h1, h2, h3⟩ := h
        have hn0 : CALIBRATION_SAMPLES - n = 0 := Nat.sub_eq_zero_of_le hge
        simp [hn0, h1, h2, h3]
  | cons a rest ih =>
      intro sX sY sZ n tX tY tZ hn h
      rcases Nat.lt_or_ge n CALIBRATION_SAMPLES with hlt | hge
      · rw [calibAccum.eq_def, if_neg (Nat.not_le.mpr hlt)] at h
        rcases a with _ | s
        · simpa using ih sX sY sZ n tX tY tZ hn h
        · have hn1 : n + 1 ≤ CALIBRATION_SAMPLES := hlt
          obtain ⟨hl, hx, hy, hz⟩ := ih (sX + s.x) (sY + s.y) (sZ + s.z) (n + 1) tX tY tZ hn1 h
          have hsub : CALIBRATION_SAMPLES - n = (CALIBRATION_SAMPLES - (n + 1)) + 1 := by omega
          refine ⟨?_, ?_, ?_, ?_⟩
          · simp [hsub, hl]
          · simp only [hsub, List.filterMap_cons, id_def, List.take_succ_cons, List.map_cons,
              List.sum_cons, hx]
            ring
          · simp only [hsub, List.filterMap_cons, id_def, List.take_succ_cons, List.map_cons,
              List.sum_cons, hy]
            ring
          · simp only [hsub, List.filterMap_cons, id_def, List.take_succ_cons, List.map_cons,
              List.sum_cons, hz]
            ring
      · rw [calibAccum_of_le _ _ _ _ _ hge] at h
        simp only [Option.some.injEq, Prod.mk.injEq] at h
        obtain ⟨h1, h2, h3⟩ := h
        have hn0 : CALIBRATION_SAMPLES - n = 0 := Nat.sub_eq_zero_of_le hge
        simp [hn0, h1, h2, h3]

/-- C2: every run of `calibrateAccelerometer` that completes accepted
exactly `CALIBRATION_SAMPLES` (50) samples, and the computed offset is the
per-axis mean of the accepted samples — each component is the sum over the
accepted samples divided by `CALIBRATION_SAMPLES` — with the fixed `1.0`
gravity correction subtracted from the Z component only, i.e. the offset
equals `(mx, my, mz - 1)` for per-axis means `(mx, my, mz)`. -/
theorem calibrate_offset_is_mean (events : List (Option Sample)) (O : CalibrationOffset)
    (h : calibrateAccelerometer events = some O) :
    (accepted events).length = CALIBRATION_SAMPLES ∧
    O.offsetX = ((accepted events).map Sample.x).sum / (CALIBRATION_SAMPLES : ℚ) ∧
    O.offsetY = ((accepted events).map Sample.y).sum / (CALIBRATION_SAMPLES : ℚ) ∧
    O.offsetZ = ((accepted events).map Sample.z).sum / (CALIBRATION_SAMPLES : ℚ) - 1 ∧
    O.offsetX = ((accepted events).map Sample.x).sum / ((accepted events).length : ℚ) ∧
    O.offsetY = ((accepted events).map Sample.y).sum / ((accepted events).length : ℚ) ∧
    O.offsetZ = ((accepted events).map Sample.z).sum / ((accepted events).length : ℚ) - 1 := by
  unfold calibrateAccelerometer at h
  cases hc : calibAccum events 0 0 0 0 with
  | none => rw [hc] at h; exact absurd h (by simp)
  | some t =>
      obtain ⟨sX, sY, sZ⟩ := t
      rw [hc] at h
      simp only [Option.some.injEq] at h
      obtain ⟨hl, hx, hy, hz⟩ := calibAccum_sums events 0 0 0 0 sX sY sZ (Nat.zero_le _) hc
      simp only [Nat.sub_zero] at hl hx hy hz
      rw [zero_add] at hx hy hz
      have hacc : (accepted events).length = CALIBRATION_SAMPLES := hl
      have hxq : sX = ((accepted events).map Sample.x).sum := by rw [accepted]; exact hx
      have hyq : sY = ((accepted events).map Sample.y).sum := by rw [accepted]; exact hy
      have hzq : sZ = ((accepted events).map Sample.z).sum := by rw [accepted]; exact hz
      subst h
      refine ⟨hacc, ?_, ?_, ?_, ?_, ?_, ?_⟩
      · dsimp only
        rw [hxq]
      · dsimp only
        rw [hyq]
      · dsimp only
        rw [hzq]
      · dsimp only
        rw [hxq, hacc]
      · dsimp only
        rw [hyq, hacc]
      · dsimp only
        rw [hzq, hacc]

set_option maxRecDepth 8000 in
/-- Witness for `calibrate_offset_is_mean` at a concrete event stream. -/
theorem calibrate_offset_is_mean_holds :
    calibrateAccelerometer calibEventsW = some ⟨1, 2, 2⟩ ∧
    (accepted calibEventsW).length = CALIBRATION_SAMPLES ∧
    (1 : ℚ) = ((accepted calibEventsW).map Sample.x).sum / (CALIBRATION_SAMPLES : ℚ) ∧
    (2 : ℚ) = ((accepted calibEventsW).map Sample.z).sum / (CALIBRATION_SAMPLES : ℚ) - 1 :=
  have hW : calibrateAccelerometer calibEventsW = some ⟨1, 2, 2⟩ := by
    norm_num [calibrateAccelerometer, calibAccum, calibEventsW, CALIBRATION_SAMPLES,
      List.replicate]
  have hmain := calibrate_offset_is_mean calibEventsW ⟨1, 2, 2⟩ hW
  ⟨hW, hmain.1, hmain.2.1, hmain.2.2.2.1⟩

/-! ## Streaming-loop theorems -/

/-- C1: on every iteration of `loop`, whatever the connection state and
whether or not a sample is published on that iteration, the `BLE.poll()`
radio-servicing call is invoked exactly once — no branch skips it. -/
theorem poll_once_every_iteration (off : CalibrationOffset) (st : LoopState) (e : Env) :
    (loop off st e).2.countP isPoll = 1 := by
  cases hc : e.central <;> cases hst : st.connectionActive <;>
    cases havail : e.accelerationAvailable <;>
      rcases Nat.lt_or_ge (elapsedMillis e.millis st.previousMillis) interval with hlt | hge <;>
        first
        | simp [loop, connAfterConnect, connAfterDisconnect, connectEvents, disconnectEvents,
            readAndSendSensorData, blinkLED, isPoll, hc, hst, havail,
            Nat.not_le.mpr hlt, List.countP_append, List.countP_cons]
        | simp [loop, connAfterConnect, connAfterDisconnect, connectEvents, disconnectEvents,
            readAndSendSensorData, blinkLED, isPoll, hc, hst, havail,
            hge, List.countP_append, List.countP_cons]

/-- C5: on any iteration where the controller is disconnected
(`BLE.central()` returned no peer), no characteristic publish occurs,
regardless of elapsed time and sensor availability; the iteration inserts
the bounded 100 ms idle delay instead. -/
theorem no_publish_while_disconnected (off : CalibrationOffset) (st : LoopState) (e : Env)
    (h : e.central = false) :
    (loop off st e).2.countP isWrite = 0 ∧ Action.delayMs 100 ∈ (loop off st e).2 := by
  cases hst : st.connectionActive <;>
    simp [loop, connAfterConnect, connAfterDisconnect, connectEvents, disconnectEvents,
      h, hst, isWrite, List.countP_append]

/-- Witness for `no_publish_while_disconnected`: the disconnected idle
iteration at time 0 publishes nothing and delays 100 ms. -/
theorem no_publish_while_disconnected_holds :
    (loop off0 st0 (envC false 0)).2.countP isWrite = 0 ∧
    Action.delayMs 100 ∈ (loop off0 st0 (envC false 0)).2 :=
  no_publish_while_disconnected off0 st0 (envC false 0) rfl

/-- C7: while a peer is connected, every `delay` executed inside a single
iteration of `loop` is short and bounded: none exceeds one sampling
interval (100 ms) — the only one is the 10 ms green-LED pulse, so in
particular no multi-second sleep occurs in a connected iteration. -/
theorem connected_delays_bounded (off : CalibrationOffset) (st : LoopState) (e : Env)
    (h : e.central = true) :
    ∀ n, Action.delayMs n ∈ (loop off st e).2 → n ≤ interval := by
  intro n
  have hint : interval = 100 := rfl
  rw [hint]
  cases hst : st.connectionActive <;>
    cases havail : e.accelerationAvailable <;>
      rcases Nat.lt_or_ge (elapsedMillis e.millis st.previousMillis) interval with hlt | hge <;>
        first
        | (simp [loop, connAfterConnect, connAfterDisconnect, connectEvents, disconnectEvents,
             readAndSendSensorData, blinkLED, h, hst, havail, Nat.not_le.mpr hlt] <;> omega)
        | (simp [loop, connAfterConnect, connAfterDisconnect, connectEvents, disconnectEvents,
             readAndSendSensorData, blinkLED, h, hst, havail, hge] <;> omega)

/-- Witness for `connected_delays_bounded`: the 10 ms pulse of a concrete
connected sampling iteration is within one interval. -/
theorem connected_delays_bounded_holds : (10 : Nat) ≤ interval :=
  connected_delays_bounded off0 ⟨true, 0⟩ (envS 150) rfl 10 (by decide)

/-- C4: connection-state transitions are edge-triggered.  Over the
peer-poll sequence [Disconnected, Disconnected, Connected, Connected,
Disconnected], exactly one connected event (peer-identity log plus blue
indicator on) and exactly one disconnected event (log plus indicator off)
fire; and in general an iteration whose polled peer state equals the
stored `connectionActive` emits no transition event at all. -/
theorem transitions_edge_triggered :
    ((runTrace off0 st0 seqC4).countP isLogConnected = 1 ∧
     (runTrace off0 st0 seqC4).countP isLogDisconnected = 1 ∧
     (runTrace off0 st0 seqC4).countP isBlueOn = 1 ∧
     (runTrace off0 st0 seqC4).countP isBlueOff = 1) ∧
    ∀ (off : CalibrationOffset) (st : LoopState) (e : Env),
      e.central = st.connectionActive →
      (loop off st e).2.countP isTransitionEvent = 0 := by
  constructor
  · refine ⟨?_, ?_, ?_, ?_⟩ <;> decide
  · intro off st e h
    cases hst : st.connectionActive <;> rw [hst] at h <;>
      cases havail : e.accelerationAvailable <;>
        rcases Nat.lt_or_ge (elapsedMillis e.millis st.previousMillis) interval with hlt | hge <;>
          first
          | simp [loop, connAfterConnect, connAfterDisconnect, connectEvents, disconnectEvents,
              readAndSendSensorData, blinkLED, isTransitionEvent, h, hst, havail,
              Nat.not_le.mpr hlt, List.countP_append, List.countP_cons, LED_GREEN, LED_BLUE]
          | simp [loop, connAfterConnect, connAfterDisconnect, connectEvents, disconnectEvents,
              readAndSendSensorData, blinkLED, isTransitionEvent, h, hst, havail,
              hge, List.countP_append, List.countP_cons, LED_GREEN, LED_BLUE]

/-- Witness for `transitions_edge_triggered`: an iteration where the peer
state persists (still connected) emits no transition event. -/
theorem transitions_edge_triggered_holds :
    (loop off0 ⟨true, 5⟩ (envC true 6)).2.countP isTransitionEvent = 0 :=
  transitions_edge_triggered.2 off0 ⟨true, 5⟩ (envC true 6) rfl

/-! ## Rate-limiter lemmas -/

/-- `previousMillis` is only ever left unchanged or reset to the current
`millis()` by a `loop` iteration. -/
theorem stepState_previousMillis (off : CalibrationOffset) (st : LoopState) (e : Env) :
    (stepState off st e).previousMillis = st.previousMillis ∨
    (stepState off st e).previousMillis = e.millis := by
  cases hc : e.central <;> cases hst : st.connectionActive <;>
    rcases Nat.lt_or_ge (elapsedMillis e.millis st.previousMillis) interval with hlt | hge <;>
      first
      | simp [stepState, loop, connAfterConnect, connAfterDisconnect, Nat.not_le.mpr hlt,
          hc, hst]
      | simp [stepState, loop, connAfterConnect, connAfterDisconnect, hge, hc, hst]

/-- An iteration can publish only when the sampling interval has elapsed,
and such an iteration resets `previousMillis` to the current time. -/
theorem publishes_implies (off : CalibrationOffset) (st : LoopState) (e : Env)
    (h : publishes off st e = true) :
    interval ≤ elapsedMillis e.millis st.previousMillis ∧
    (stepState off st e).previousMillis = e.millis := by
  cases hc : e.central <;> cases hst : st.connectionActive <;>
    cases havail : e.accelerationAvailable <;>
      rcases Nat.lt_or_ge (elapsedMillis e.millis st.previousMillis) interval with hlt | hge <;>
        first
        | (exfalso
           simp [publishes, loop, connAfterConnect, connAfterDisconnect, connectEvents,
             disconnectEvents, readAndSendSensorData, blinkLED, isWrite, hc, hst, havail,
             Nat.not_le.mpr hlt] at h
           done)
        | (exfalso
           simp [publishes, loop, connAfterConnect, connAfterDisconnect, connectEvents,
             disconnectEvents, readAndSendSensorData, blinkLED, isWrite, hc, hst, havail,
             hge] at h
           done)
        | (refine ⟨hge, ?_⟩
           simp [stepState, loop, connAfterConnect, connAfterDisconnect, hge, hc, hst]
           done)

/-- `runState` on a cons. -/
theorem runState_cons (off : CalibrationOffset) (st : LoopState) (e : Env) (rest : List Env) :
    runState off st (e :: rest) = runState off (stepState off st e) rest := rfl

/-- `previousMillis` never drops below a bound satisfied by the starting
state and every iteration time. -/
theorem runState_previousMillis_lb (off : CalibrationOffset) (T : Nat) :
    ∀ (envs : List Env) (st : LoopState),
      (∀ e ∈ envs, T ≤ e.millis) → T ≤ st.previousMillis →
      T ≤ (runState off st envs).previousMillis := by
  intro envs
  induction envs with
  | nil => intro st _ hst; exact hst
  | cons e rest ih =>
      intro st hall hst
      rw [runState_cons]
      refine ih _ (fun e' he' => hall e' (List.mem_cons_of_mem _ he')) ?_
      rcases stepState_previousMillis off st e with hp | hp
      · rw [hp]; exact hst
      · rw [hp]; exact hall e (List.mem_cons_self _ _)

/-- `previousMillis` never exceeds a bound satisfied by the starting state
and every iteration time. -/
theorem runState_previousMillis_ub (off : CalibrationOffset) (B : Nat) :
    ∀ (envs : List Env) (st : LoopState),
      (∀ e ∈ envs, e.millis ≤ B) → st.previousMillis ≤ B →
      (runState off st envs).previousMillis ≤ B := by
  intro envs
  induction envs with
  | nil => intro st _ hst; exact hst
  | cons e rest ih =>
      intro st hall hst
      rw [runState_cons]
      refine ih _ (fun e' he' => hall e' (List.mem_cons_of_mem _ he')) ?_
      rcases stepState_previousMillis off st e with hp | hp
      · rw [hp]; exact hst
      · rw [hp]; exact hall e (List.mem_cons_self _ _)

/-- Without wraparound, the `unsigned long` elapsed-time computation is
plain subtraction. -/
theorem elapsedMillis_eq_sub (cur prev : Nat) (hle : prev ≤ cur) (hcur : cur < ULONG_MOD) :
    elapsedMillis cur prev = cur - prev := by
  have hM : ULONG_MOD = 4294967296 := by norm_num [ULONG_MOD]
  unfold elapsedMillis
  rw [hM] at hcur ⊢
  omega

/-- C3: while connected, publishes are rate limited.  For any two
iterations that publish — the first at environment `ei` after the
iterations `pre`, the second at `ej` after further iterations `mid` — if
`millis()` is nondecreasing and does not wrap, then at least
`interval = 1000 / SAMPLING_RATE_HZ` milliseconds (100 ms at 10 Hz)
separate the two publish events, no matter how fast the loop iterates. -/
theorem publish_interval_lower_bound (off : CalibrationOffset) (st0 : LoopState)
    (pre mid : List Env) (ei ej : Env)
    (hmid_lb : ∀ e ∈ mid, ei.millis ≤ e.millis)
    (hmid_ub : ∀ e ∈ mid, e.millis ≤ ej.millis)
    (hij : ei.millis ≤ ej.millis)
    (hbound : ej.millis < ULONG_MOD)
    (hpi : publishes off (runState off st0 pre) ei = true)
    (hpj : publishes off (runState off (stepState off (runState off st0 pre) ei) mid) ej
        = true) :
    ei.millis + interval ≤ ej.millis := by
  have h1 := (publishes_implies off (runState off st0 pre) ei hpi).2
  have hlb : ei.millis ≤
      (runState off (stepState off (runState off st0 pre) ei) mid).previousMillis := by
    refine runState_previousMillis_lb off ei.millis mid _ hmid_lb ?_
    rw [h1]
  have hub : (runState off (stepState off (runState off st0 pre) ei) mid).previousMillis ≤
      ej.millis := by
    refine runState_previousMillis_ub off ej.millis mid _ hmid_ub ?_
    rw [h1]
    exact hij
  have h2 := (publishes_implies off
    (runState off (stepState off (runState off st0 pre) ei) mid) ej hpj).1
  rw [elapsedMillis_eq_sub _ _ hub hbound] at h2
  omega

/-- Witness for `publish_interval_lower_bound`: a connect iteration, a
publish at 150 ms, and the next publish at 300 ms are at least one
interval apart. -/
theorem publish_interval_lower_bound_holds :
    (envS 150).millis + interval ≤ (envS 300).millis :=
  publish_interval_lower_bound off0 st0 [envC true 0] [] (envS 150) (envS 300)
    (by intro e he; simp at he) (by intro e he; simp at he) (by decide) (by decide)
    (by decide) (by decide)

/-! ## Correction-step and magnitude theorems -/

/-- C6: processing an available sample publishes exactly the component-wise
difference raw − offset together with its magnitude; the magnitude is the
non-negative Euclidean norm `sqrt(x² + y² + z²)` of the corrected
components for all inputs; and a raw sample equal to the offset round-trips
to a corrected reading of `(0, 0, 0)` with magnitude `0`. -/
theorem corrected_roundtrip_magnitude (off : CalibrationOffset) (e : Env)
    (havail : e.accelerationAvailable = true) :
    readAndSendSensorData off e =
      [.logData (e.accel.x - off.offsetX) (e.accel.y - off.offsetY) (e.accel.z - off.offsetZ)
         ((e.accel.x - off.offsetX) * (e.accel.x - off.offsetX) +
          (e.accel.y - off.offsetY) * (e.accel.y - off.offsetY) +
          (e.accel.z - off.offsetZ) * (e.accel.z - off.offsetZ)),
       .writeValue attrX (e.accel.x - off.offsetX),
       .writeValue attrY (e.accel.y - off.offsetY),
       .writeValue attrZ (e.accel.z - off.offsetZ),
       .writeMagValue
         ((e.accel.x - off.offsetX) * (e.accel.x - off.offsetX) +
          (e.accel.y - off.offsetY) * (e.accel.y - off.offsetY) +
          (e.accel.z - off.offsetZ) * (e.accel.z - off.offsetZ))] ++ blinkLED ∧
    (0 : ℝ) ≤ magnitude (e.accel.x - off.offsetX) (e.accel.y - off.offsetY)
        (e.accel.z - off.offsetZ) ∧
    (e.accel = ⟨off.offsetX, off.offsetY, off.offsetZ⟩ →
      e.accel.x - off.offsetX = 0 ∧ e.accel.y - off.offsetY = 0 ∧
      e.accel.z - off.offsetZ = 0 ∧
      magnitude (e.accel.x - off.offsetX) (e.accel.y - off.offsetY)
        (e.accel.z - off.offsetZ) = 0) := by
  refine ⟨by simp [readAndSendSensorData, havail], Real.sqrt_nonneg _, ?_⟩
  intro hraw
  rw [hraw]
  norm_num [magnitude]

/-- Witness for `corrected_roundtrip_magnitude`: the raw sample `(3, 0, 4)`
against the offset `(3, 0, 4)` corrects to zero with zero magnitude. -/
theorem corrected_roundtrip_magnitude_holds :
    (0 : ℝ) ≤ magnitude (envW.accel.x - offW.offsetX) (envW.accel.y - offW.offsetY)
        (envW.accel.z - offW.offsetZ) ∧
    magnitude (envW.accel.x - offW.offsetX) (envW.accel.y - offW.offsetY)
        (envW.accel.z - offW.offsetZ) = 0 :=
  have h := corrected_roundtrip_magnitude offW envW rfl
  ⟨h.2.1, (h.2.2 rfl).2.2.2⟩

/-! ## Bootstrap theorems -/

/-- C8: the calibration offsets are installed by `setup` exactly as
`calibrateAccelerometer` computed them, with a fresh loop state, before the
streaming loop starts; and no sequence of loop iterations ever changes
them — there is no re-calibration path. -/
theorem offsets_immutable (ds : DeviceState) (envs : List Env) :
    (runDevice ds envs).offset = ds.offset ∧
    ∀ (events : List (Option Sample)) (bleOk imuOk : Bool) (ds0 : DeviceState),
      (setup imuOk events bleOk).1 = .ready ds0 →
      calibrateAccelerometer events = some ds0.offset ∧ ds0.loopState = st0 := by
  constructor
  · induction envs generalizing ds with
    | nil => rfl
    | cons e rest ih => exact (ih ((deviceStep ds e).1)).trans rfl
  · intro events bleOk imuOk ds0 hsetup
    cases imuOk
    · simp [setup] at hsetup
    · cases hcal : calibrateAccelerometer events with
      | none => simp [setup, hcal] at hsetup
      | some off =>
          cases bleOk
          · simp [setup, hcal] at hsetup
          · simp only [setup, hcal, Bool.not_true, Bool.false_eq_true, if_false,
              BootOutcome.ready.injEq] at hsetup
            rw [← hsetup]
            exact ⟨rfl, rfl⟩

set_option maxRecDepth 8000 in
/-- Witness for `offsets_immutable`: a concrete successful bootstrap
installs the calibrated offsets and one loop iteration leaves them. -/
theorem offsets_immutable_holds :
    (runDevice ⟨off0, st0⟩ [envS 150]).offset = off0 ∧
    calibrateAccelerometer calibEventsW = some (⟨⟨1, 2, 2⟩, st0⟩ : DeviceState).offset :=
  have hs : (setup true calibEventsW true).1 = .ready ⟨⟨1, 2, 2⟩, st0⟩ := by
    norm_num [setup, calibrateAccelerometer, calibAccum, calibEventsW, CALIBRATION_SAMPLES,
      List.replicate, st0]
  ⟨(offsets_immutable ⟨off0, st0⟩ [envS 150]).1,
   ((offsets_immutable ⟨off0, st0⟩ []).2 calibEventsW true true ⟨⟨1, 2, 2⟩, st0⟩ hs).1⟩

/-- From `Mode.halted` every tick stays halted. -/
theorem runMode_halted (envs : List Env) : runMode .halted envs = .halted := by
  induction envs with
  | nil => rfl
  | cons e rest ih => exact ih

/-- From `Mode.halted` the only actions ever emitted are the error-blink
pattern. -/
theorem runModeTrace_halted (envs : List Env) :
    ∀ a ∈ runModeTrace Mode.halted envs, a ∈ showErrorBody := by
  induction envs with
  | nil =>
      intro a ha
      simp [runModeTrace] at ha
  | cons e rest ih =>
      intro a ha
      rw [runModeTrace] at ha
      rcases List.mem_append.mp ha with h | h
      · exact h
      · exact ih a h

/-- C9: initialization failure is fatal and absorbing.  If `IMU.begin()`
fails, `setup` enters `showError` (solid red indicator) without
calibrating; if `BLE.begin()` fails after a completed calibration, it does
too; and from the halted state every later tick stays halted and emits
only the blue error-blink actions — never a characteristic publish, so no
sampling, publishing or re-initialization ever happens again. -/
theorem init_failure_halts (events : List (Option Sample)) (bleOk : Bool)
    (O : CalibrationOffset) (hcal : calibrateAccelerometer events = some O)
    (envs : List Env) :
    ((setup false events bleOk).1 = .halted ∧
      Action.digitalWrite LED_RED false ∈ (setup false events bleOk).2) ∧
    ((setup true events false).1 = .halted ∧
      Action.digitalWrite LED_RED false ∈ (setup true events false).2) ∧
    runMode .halted envs = .halted ∧
    (∀ a ∈ runModeTrace .halted envs, a ∈ showErrorBody) ∧
    (runModeTrace .halted envs).countP isWrite = 0 := by
  refine ⟨⟨rfl, by simp [setup]⟩, ⟨?_, ?_⟩, runMode_halted envs, runModeTrace_halted envs, ?_⟩
  · simp [setup, hcal]
  · simp [setup, hcal]
  · rw [List.countP_eq_zero]
    intro a ha
    have hmem := runModeTrace_halted envs a ha
    simp only [showErrorBody, List.mem_cons, List.not_mem_nil, or_false] at hmem
    rcases hmem with h | h | h | h <;> subst h <;> simp [isWrite]

/-- Witness for `init_failure_halts` at a concrete calibration stream,
radio flag and tick sequence. -/
theorem init_failure_halts_holds :
    (setup false calibEventsW true).1 = .halted ∧
    (setup true calibEventsW false).1 = .halted ∧
    runMode .halted [envC false 0] = .halted :=
  have hW : calibrateAccelerometer calibEventsW = some ⟨1, 2, 2⟩ := by
    norm_num [calibrateAccelerometer, calibAccum, calibEventsW, CALIBRATION_SAMPLES,
      List.replicate]
  have h := init_failure_halts calibEventsW true ⟨1, 2, 2⟩ hW [envC false 0]
  ⟨h.1.1, h.2.1.1, h.2.2.1⟩

/-- C10: a successful bootstrap ends by writing the initial value `0.0` to
each of the four characteristics, once each and in order X, Y, Z,
magnitude, after advertising has started and before the first loop
iteration; no earlier action of `setup` writes a characteristic, so a peer
reading an attribute before the first sample observes `0.0`. -/
theorem initial_values_zero (events : List (Option Sample)) (O : CalibrationOffset)
    (hcal : calibrateAccelerometer events = some O) :
    ∃ pre,
      (setup true events true).2 =
        pre ++ [.writeValue attrX 0, .writeValue attrY 0, .writeValue attrZ 0,
                .writeMagValue 0] ∧
      Action.advertise ∈ pre ∧
      ∀ a ∈ pre, isWrite a = false := by
  refine ⟨[.digitalWrite LED_GREEN true, .digitalWrite LED_RED true,
           .digitalWrite LED_BLUE true, .logMsg "IMU initialized.",
           .logMsg "BLE initialized.", .setLocalName "Nano33BLE_Vibration",
           .setAdvertisedService "180D", .addCharacteristic attrX, .addCharacteristic attrY,
           .addCharacteristic attrZ, .addCharacteristic attrMag, .addService "180D",
           .advertise, .logMsg "BLE Advertising..."], ?_, ?_, ?_⟩
  · simp [setup, hcal]
  · simp
  · decide

set_option maxRecDepth 8000 in
/-- Witness for `initial_values_zero` at a concrete calibration stream. -/
theorem initial_values_zero_holds :
    ∃ pre,
      (setup true calibEventsW true).2 =
        pre ++ [.writeValue attrX 0, .writeValue attrY 0, .writeValue attrZ 0,
                .writeMagValue 0] ∧
      Action.advertise ∈ pre ∧
      ∀ a ∈ pre, isWrite a = false :=
  initial_values_zero calibEventsW ⟨1, 2, 2⟩ (by
    norm_num [calibrateAccelerometer, calibAccum, calibEventsW, CALIBRATION_SAMPLES,
      List.replicate])

end VibrationSense
